import Mathlib

/-!
Verification of the realtime relay backend of virtualpodcaststudio
(src/backend/main.py), shallowly embedded in Lean 4.

Conventions of the embedding:
* Wall-clock readings of `time.time()` are rationals; readings of
  `datetime.now()` are naturals (microsecond ticks).  The code renders an
  outbound event identifier as the string `"event_" + now.isoformat()`;
  since the ISO rendering is injective in the clock reading, identifiers
  are embedded as the clock reading itself.
* WebSocket sends are recorded in traces (lists); exceptions that the code
  catches and merely logs produce no trace entries, matching the source.
-/

namespace PodcastStudio

/-- Ceiling of admitted requests per window (`RATE_LIMIT_REQUESTS = 100`). -/
def RATE_LIMIT_REQUESTS : Nat := 100

/-- Sliding-window length in seconds (`RATE_LIMIT_WINDOW = 60`). -/
def RATE_LIMIT_WINDOW : ℚ := 60

/-- The process-wide `rate_limit_store`: per-identity timestamp lists
(`defaultdict(list)` keyed by client IP). -/
def RateStore : Type := String → List ℚ

/-- Embeds `check_rate_limit(client_ip)` from src/backend/main.py.  The
implicit `now = time.time()` is an explicit argument; the mutation of the
global store is explicit state passing.  The function (1) reassigns the
identity's entry to the timestamps `t` with `now - t < RATE_LIMIT_WINDOW`,
(2) returns `false` without recording when the pruned entry already has at
least `RATE_LIMIT_REQUESTS` elements, (3) otherwise appends `now` and
returns `true`. -/
def check_rate_limit (store : RateStore) (client_ip : String) (now : ℚ) :
    Bool × RateStore :=
  let pruned := (store client_ip).filter (fun t => now - t < RATE_LIMIT_WINDOW)
  if RATE_LIMIT_REQUESTS ≤ pruned.length then
    (false, fun ip => if ip = client_ip then pruned else store ip)
  else
    (true, fun ip => if ip = client_ip then pruned ++ [now] else store ip)

/-- C4 — each admission call prunes the identity's timestamps to those
within the window, denies without recording once the ceiling is reached,
and otherwise records `now` and admits; consequently the (N+1)-th request
inside one window is rejected and a request after a full idle window is
admitted. -/
theorem check_rate_limit_spec (store : RateStore) (client_ip : String) (now : ℚ) :
    ((check_rate_limit store client_ip now).1 =
        decide ((((store client_ip).filter
          (fun t => now - t < RATE_LIMIT_WINDOW)).length < RATE_LIMIT_REQUESTS)) ∧
      (check_rate_limit store client_ip now).2 client_ip =
        (if RATE_LIMIT_REQUESTS ≤
            ((store client_ip).filter (fun t => now - t < RATE_LIMIT_WINDOW)).length
         then (store client_ip).filter (fun t => now - t < RATE_LIMIT_WINDOW)
         else (store client_ip).filter (fun t => now - t < RATE_LIMIT_WINDOW) ++ [now])) ∧
    (RATE_LIMIT_REQUESTS ≤ (store client_ip).length →
      (∀ t ∈ store client_ip, now - t < RATE_LIMIT_WINDOW) →
      (check_rate_limit store client_ip now).1 = false) ∧
    ((∀ t ∈ store client_ip, RATE_LIMIT_WINDOW ≤ now - t) →
      (check_rate_limit store client_ip now).1 = true) := by
  refine ⟨⟨?_, ?_⟩, ?_, ?_⟩
  · unfold check_rate_limit
    by_cases h : RATE_LIMIT_REQUESTS ≤
        ((store client_ip).filter (fun t => now - t < RATE_LIMIT_WINDOW)).length
    · simp only [if_pos h]
      simp [Nat.not_lt.mpr h]
    · simp only [if_neg h]
      simp [Nat.lt_of_not_le h]
  · unfold check_rate_limit
    by_cases h : RATE_LIMIT_REQUESTS ≤
        ((store client_ip).filter (fun t => now - t < RATE_LIMIT_WINDOW)).length
    · simp [if_pos h]
    · simp [if_neg h]
  · intro hlen hall
    have hfull : (store client_ip).filter (fun t => now - t < RATE_LIMIT_WINDOW) =
        store client_ip := by
      apply List.filter_eq_self.mpr
      intro a ha
      exact decide_eq_true (hall a ha)
    unfold check_rate_limit
    rw [hfull, if_pos hlen]
  · intro hall
    have hempty : (store client_ip).filter (fun t => now - t < RATE_LIMIT_WINDOW) = [] := by
      apply List.filter_eq_nil_iff.mpr
      intro a ha
      simp only [decide_eq_true_eq]
      exact not_lt.mpr (hall a ha)
    unfold check_rate_limit
    rw [hempty]
    simp [RATE_LIMIT_REQUESTS]

/-- Witness for `check_rate_limit_spec` at concrete stores: a 101st call
within the window is denied; a call after a full idle window is admitted. -/
theorem check_rate_limit_spec_witness :
    (check_rate_limit (fun _ => List.replicate 100 (0 : ℚ)) "c" 30).1 = false ∧
    (check_rate_limit (fun _ => [(0 : ℚ)]) "c" 60).1 = true :=
  ⟨(check_rate_limit_spec (fun _ => List.replicate 100 (0 : ℚ)) "c" 30).2.1
      (by decide)
      (by
        intro t ht
        rw [List.eq_of_mem_replicate ht, RATE_LIMIT_WINDOW]
        norm_num),
   (check_rate_limit_spec (fun _ => [(0 : ℚ)]) "c" 60).2.2
      (by
        intro t ht
        rw [List.mem_singleton.mp ht, RATE_LIMIT_WINDOW]
        norm_num)⟩

/-- The immutable `session_config` record built in `RealtimeSession.__init__`. -/
structure SessionConfig where
  modalities : List String
  instructions : String
  voice : String
  input_audio_format : String
  output_audio_format : String
  transcription_enabled : Bool
  transcription_model : String
  turn_detection_type : String
  turn_detection_threshold : ℚ
  turn_detection_prefix_padding_ms : Nat
  turn_detection_silence_duration_ms : Nat
  temperature : ℚ
  max_output_tokens : Nat
deriving DecidableEq

/-- The literal configuration from `RealtimeSession.__init__`. -/
def session_config : SessionConfig where
  modalities := ["text", "audio"]
  instructions := "You are a podcast host and AI expert discussing research papers. Engage in natural conversation with the user about academic topics."
  voice := "alloy"
  input_audio_format := "pcm16"
  output_audio_format := "pcm16"
  transcription_enabled := true
  transcription_model := "whisper-1"
  turn_detection_type := "server_vad"
  turn_detection_threshold := 0.5
  turn_detection_prefix_padding_ms := 300
  turn_detection_silence_duration_ms := 200
  temperature := 0.8
  max_output_tokens := 4096

/-- Content of a `conversation.item.create` item: `input_text` or
`input_audio`, as built in `handle_client_message`. -/
inductive ItemContent where
  | input_text (text : String)
  | input_audio (audio : String)
deriving DecidableEq

/-- Outbound upstream events the relay sends over the OpenAI socket.
Identifier fields hold the `datetime.now()` reading whose ISO rendering the
code formats into `"event_..."` / `"item_..."` strings (see file header). -/
inductive UpEvent where
  | session_update (eid : Nat) (session : SessionConfig)
  | conversation_item_create (eid : Nat) (item_id : Nat) (content : ItemContent)
  | response_create (eid : Nat)
deriving DecidableEq

/-- A client message as dispatched on `message.get("type")`: `audio`,
`text`, or anything else (which `handle_client_message` ignores). -/
inductive ClientMsg where
  | text (text : String)
  | audio (audio : String)
  | other (kind : String)
deriving DecidableEq

/-- True for the two user-content message kinds. -/
def is_user_content : ClientMsg → Bool
  | .text _ => true
  | .audio _ => true
  | .other _ => false

/-- Embeds `RealtimeSession.handle_client_message`: returns the upstream
events sent for one client message together with the advanced clock-read
counter.  Both user-content branches read the clock three times (item
event id, item id, response event id) and send the conversation item
followed by `response.create`; any other kind sends nothing. -/
def handle_client_message (clock : Nat → Nat) (k : Nat) :
    ClientMsg → List UpEvent × Nat
  | .audio a =>
    ([UpEvent.conversation_item_create (clock k) (clock (k + 1)) (.input_audio a),
      UpEvent.response_create (clock (k + 2))], k + 3)
  | .text s =>
    ([UpEvent.conversation_item_create (clock k) (clock (k + 1)) (.input_text s),
      UpEvent.response_create (clock (k + 2))], k + 3)
  | .other _ => ([], k)

/-- Embeds the client-receive loop of `websocket_conversation`
(`while True: data = await websocket.receive_json(); await
session.handle_client_message(data)`), which handles client messages
strictly one after another. -/
def run_client_loop (clock : Nat → Nat) : Nat → List ClientMsg → List UpEvent × Nat
  | k, [] => ([], k)
  | k, m :: ms =>
    ((handle_client_message clock k m).1 ++
       (run_client_loop clock (handle_client_message clock k m).2 ms).1,
     (run_client_loop clock (handle_client_message clock k m).2 ms).2)

/-- Embeds `RealtimeSession._send_session_update`: one `session.update`
event carrying the session configuration, consuming one clock read. -/
def send_session_update (clock : Nat → Nat) (k : Nat) : UpEvent × Nat :=
  (UpEvent.session_update (clock k) session_config, k + 1)

/-- The full outbound upstream event sequence of a session whose
connection succeeded: `connect_to_openai` sends the configuration first
(clock read 0), then the client loop runs. -/
def upstream_trace (clock : Nat → Nat) (msgs : List ClientMsg) : List UpEvent :=
  (send_session_update clock 0).1 :: (run_client_loop clock 1 msgs).1

/-- True for `session.update` events. -/
def is_session_update : UpEvent → Bool
  | .session_update _ _ => true
  | _ => false

/-- The `event_id` field of an outbound upstream event. -/
def event_id : UpEvent → Nat
  | .session_update eid _ => eid
  | .conversation_item_create eid _ _ => eid
  | .response_create eid => eid

theorem run_client_loop_append (clock : Nat → Nat) (k : Nat) (xs ys : List ClientMsg) :
    run_client_loop clock k (xs ++ ys) =
      ((run_client_loop clock k xs).1 ++
         (run_client_loop clock (run_client_loop clock k xs).2 ys).1,
       (run_client_loop clock (run_client_loop clock k xs).2 ys).2) := by
  induction xs generalizing k with
  | nil => simp [run_client_loop]
  | cons m ms ih => simp [run_client_loop, ih, List.append_assoc]

/-- C1 — each `text` or `audio` client message contributes exactly one
`conversation.item.create` immediately followed by one `response.create`
to the session's upstream sequence, as one contiguous block between the
blocks of the preceding and following client messages. -/
theorem client_message_pair (clock : Nat → Nat) (k : Nat) (ms1 ms2 : List ClientMsg)
    (m : ClientMsg) (h : is_user_content m = true) :
    ∃ c : ItemContent,
      (run_client_loop clock k (ms1 ++ m :: ms2)).1 =
        (run_client_loop clock k ms1).1 ++
          UpEvent.conversation_item_create (clock (run_client_loop clock k ms1).2)
              (clock ((run_client_loop clock k ms1).2 + 1)) c ::
            UpEvent.response_create (clock ((run_client_loop clock k ms1).2 + 2)) ::
            (run_client_loop clock ((run_client_loop clock k ms1).2 + 3) ms2).1 := by
  cases m with
  | text s =>
    refine ⟨ItemContent.input_text s, ?_⟩
    rw [run_client_loop_append]
    simp [run_client_loop, handle_client_message]
  | audio a =>
    refine ⟨ItemContent.input_audio a, ?_⟩
    rw [run_client_loop_append]
    simp [run_client_loop, handle_client_message]
  | other t => simp [is_user_content] at h

/-- Witness: a single `text` message on a fresh session yields exactly the
adjacent item/response pair. -/
theorem client_message_pair_witness :
    ∃ c : ItemContent,
      (run_client_loop (fun i => i) 0 [ClientMsg.text "hello"]).1 =
        [UpEvent.conversation_item_create 0 1 c, UpEvent.response_create 2] :=
  client_message_pair (fun i => i) 0 [] [] (ClientMsg.text "hello") rfl

theorem run_client_loop_countP_config (clock : Nat → Nat) (ms : List ClientMsg) :
    ∀ k, ((run_client_loop clock k ms).1.countP is_session_update) = 0 := by
  induction ms with
  | nil => intro k; simp [run_client_loop]
  | cons m ms ih =>
    intro k
    cases m <;>
      simp [run_client_loop, handle_client_message, List.countP_append,
        List.countP_cons, is_session_update, ih]

/-- C7 — the configuration event is sent exactly once per session and is
the very first outbound upstream event, hence precedes every
conversation-item and response-request event. -/
theorem config_sent_once_first (clock : Nat → Nat) (msgs : List ClientMsg) :
    (upstream_trace clock msgs).countP is_session_update = 1 ∧
    (upstream_trace clock msgs).head? =
      some (UpEvent.session_update (clock 0) session_config) := by
  constructor
  · simp [upstream_trace, send_session_update, List.countP_cons, is_session_update,
      run_client_loop_countP_config]
  · rfl

/-- Clock-read indices backing the `event_id` fields emitted by the client
loop started at counter `k`: a user-content message at counter `k` uses
reads `k` (item event) and `k + 2` (response event), advancing to `k + 3`. -/
def id_indices : Nat → List ClientMsg → List Nat
  | _, [] => []
  | k, .text _ :: ms => k :: (k + 2) :: id_indices (k + 3) ms
  | k, .audio _ :: ms => k :: (k + 2) :: id_indices (k + 3) ms
  | k, .other _ :: ms => id_indices k ms

theorem run_client_loop_map_event_id (clock : Nat → Nat) (ms : List ClientMsg) :
    ∀ k, (run_client_loop clock k ms).1.map event_id = (id_indices k ms).map clock := by
  induction ms with
  | nil => intro k; simp [run_client_loop, id_indices]
  | cons m ms ih =>
    intro k
    cases m <;>
      simp [run_client_loop, handle_client_message, id_indices, event_id, ih]

theorem id_indices_lb (ms : List ClientMsg) : ∀ k, ∀ i ∈ id_indices k ms, k ≤ i := by
  induction ms with
  | nil => intro k i hi; simp [id_indices] at hi
  | cons m ms ih =>
    intro k i hi
    cases m with
    | text s =>
      simp only [id_indices, List.mem_cons] at hi
      rcases hi with rfl | rfl | hi
      · exact Nat.le_refl _
      · omega
      · have := ih (k + 3) i hi; omega
    | audio a =>
      simp only [id_indices, List.mem_cons] at hi
      rcases hi with rfl | rfl | hi
      · exact Nat.le_refl _
      · omega
      · have := ih (k + 3) i hi; omega
    | other t => exact ih k i hi

theorem id_indices_pairwise (ms : List ClientMsg) :
    ∀ k, (id_indices k ms).Pairwise (· < ·) := by
  induction ms with
  | nil => intro k; simp [id_indices]
  | cons m ms ih =>
    intro k
    cases m with
    | text s =>
      refine List.pairwise_cons.mpr ⟨?_, List.pairwise_cons.mpr ⟨?_, ih (k + 3)⟩⟩
      · intro b hb
        rcases List.mem_cons.mp hb with rfl | hb
        · omega
        · have := id_indices_lb ms (k + 3) b hb; omega
      · intro b hb
        have := id_indices_lb ms (k + 3) b hb; omega
    | audio a =>
      refine List.pairwise_cons.mpr ⟨?_, List.pairwise_cons.mpr ⟨?_, ih (k + 3)⟩⟩
      · intro b hb
        rcases List.mem_cons.mp hb with rfl | hb
        · omega
        · have := id_indices_lb ms (k + 3) b hb; omega
      · intro b hb
        have := id_indices_lb ms (k + 3) b hb; omega
    | other t => exact ih k

/-- Counterexample to C8 as stated: with a clock stuck on one reading
(two generations within the same microsecond tick) a single `text`
message already produces colliding `event_id`s with the configuration
event — identifiers are not unconditionally distinct. -/
theorem event_ids_collide_constant_clock :
    ¬ ((upstream_trace (fun _ => 0) [ClientMsg.text "hi"]).map event_id).Nodup := by
  decide

/-- C8 as amended — outbound `event_id`s are the clock readings at the
generation instants, so whenever the session's clock readings are pairwise
distinct (an injective clock, e.g. strictly increasing time), the
identifiers of the configuration, conversation-item and response-request
events are pairwise distinct. -/
theorem event_ids_distinct_of_injective_clock (clock : Nat → Nat)
    (msgs : List ClientMsg) (h : Function.Injective clock) :
    ((upstream_trace clock msgs).map event_id).Nodup := by
  have hmap : (upstream_trace clock msgs).map event_id =
      (0 :: id_indices 1 msgs).map clock := by
    simp [upstream_trace, send_session_update, event_id,
      run_client_loop_map_event_id]
  rw [hmap]
  apply List.Nodup.map h
  have hpw : (0 :: id_indices 1 msgs).Pairwise (· < ·) := by
    refine List.pairwise_cons.mpr ⟨?_, id_indices_pairwise msgs 1⟩
    intro b hb
    have := id_indices_lb msgs 1 b hb
    omega
  exact hpw.imp Nat.ne_of_lt

/-- Witness: with the identity clock (strictly increasing readings) the
identifiers of a one-message session are pairwise distinct. -/
theorem event_ids_distinct_witness :
    ((upstream_trace (fun i => i) [ClientMsg.text "hi"]).map event_id).Nodup :=
  event_ids_distinct_of_injective_clock (fun i => i) [ClientMsg.text "hi"]
    (fun _ _ hab => hab)

/-- An upstream (OpenAI) event as consumed by `handle_openai_response`:
`data.get("type")` (absent key gives `none`) and `data.get("delta", "")`
(already defaulted to the empty string). -/
structure OaEvent where
  type : Option String
  delta : String
deriving DecidableEq

/-- Messages the relay sends to the client over the client WebSocket. -/
inductive ClientOut where
  | session_ready
  | audio_delta (audio : String)
  | text_delta (text : String)
  | response_done
  | speech_started
  | speech_stopped
  | error (message : String)
deriving DecidableEq

/-- True for `error` messages to the client. -/
def is_error : ClientOut → Bool
  | .error _ => true
  | _ => false

/-- True for the `session_ready` message. -/
def is_ready : ClientOut → Bool
  | .session_ready => true
  | _ => false

/-- True for upstream `session.created` events. -/
def is_session_created (e : OaEvent) : Bool := e.type = some "session.created"

/-- Embeds the per-event dispatch inside `handle_openai_response`'s
`async for` body: the `if/elif` chain over `data.get("type")`.  An event
matching none of the six branches produces no client message. -/
def handle_openai_event (e : OaEvent) : List ClientOut :=
  if e.type = some "session.created" then [ClientOut.session_ready]
  else if e.type = some "response.audio.delta" then [ClientOut.audio_delta e.delta]
  else if e.type = some "response.text.delta" then [ClientOut.text_delta e.delta]
  else if e.type = some "response.done" then [ClientOut.response_done]
  else if e.type = some "input_audio_buffer.speech_started" then [ClientOut.speech_started]
  else if e.type = some "input_audio_buffer.speech_stopped" then [ClientOut.speech_stopped]
  else []

/-- Embeds `RealtimeSession.handle_openai_response`: the loop over the
upstream socket, translating each received event in order.  The argument
list is exactly the events received before the upstream connection closed;
the terminating `ConnectionClosed` (or any other exception) is caught and
only logged, producing no client message. -/
def handle_openai_response : List OaEvent → List ClientOut
  | [] => []
  | e :: es => handle_openai_event e ++ handle_openai_response es

/-- The six upstream event kinds with a dispatch branch. -/
def known_kinds : List String :=
  ["session.created", "response.audio.delta", "response.text.delta",
   "response.done", "input_audio_buffer.speech_started",
   "input_audio_buffer.speech_stopped"]

theorem handle_openai_response_append (xs ys : List OaEvent) :
    handle_openai_response (xs ++ ys) =
      handle_openai_response xs ++ handle_openai_response ys := by
  induction xs with
  | nil => simp [handle_openai_response]
  | cons e es ih => simp [handle_openai_response, ih]

theorem handle_openai_event_no_error (e : OaEvent) :
    (handle_openai_event e).countP is_error = 0 := by
  unfold handle_openai_event
  repeat' split
  all_goals simp [is_error]

theorem handle_openai_response_no_error (evs : List OaEvent) :
    (handle_openai_response evs).countP is_error = 0 := by
  induction evs with
  | nil => simp [handle_openai_response]
  | cons e es ih =>
    simp [handle_openai_response, List.countP_append, ih,
      handle_openai_event_no_error]

theorem handle_openai_event_ready_count (e : OaEvent) :
    (handle_openai_event e).countP is_ready =
      if e.type = some "session.created" then 1 else 0 := by
  unfold handle_openai_event
  by_cases h : e.type = some "session.created"
  · simp [h, is_ready]
  · simp only [if_neg h]
    repeat' split
    all_goals simp [is_ready]

theorem handle_openai_response_ready_count (evs : List OaEvent) :
    (handle_openai_response evs).countP is_ready =
      evs.countP is_session_created := by
  induction evs with
  | nil => simp [handle_openai_response]
  | cons e es ih =>
    simp only [handle_openai_response, List.countP_append, ih,
      List.countP_cons, handle_openai_event_ready_count, is_session_created]
    by_cases h : e.type = some "session.created"
    · simp [h, Nat.add_comm]
    · simp [h]

/-- C10 — an upstream event whose kind matches none of the six dispatch
branches produces no client message, and the forwarding loop continues
with the surrounding events unchanged (it neither raises nor stops). -/
theorem unknown_event_dropped (e : OaEvent) (evs1 evs2 : List OaEvent)
    (h : ∀ s ∈ known_kinds, e.type ≠ some s) :
    handle_openai_event e = [] ∧
    handle_openai_response (evs1 ++ e :: evs2) =
      handle_openai_response evs1 ++ handle_openai_response evs2 := by
  have h1 := h "session.created" (by simp [known_kinds])
  have h2 := h "response.audio.delta" (by simp [known_kinds])
  have h3 := h "response.text.delta" (by simp [known_kinds])
  have h4 := h "response.done" (by simp [known_kinds])
  have h5 := h "input_audio_buffer.speech_started" (by simp [known_kinds])
  have h6 := h "input_audio_buffer.speech_stopped" (by simp [known_kinds])
  have he : handle_openai_event e = [] := by
    unfold handle_openai_event
    simp [h1, h2, h3, h4, h5, h6]
  refine ⟨he, ?_⟩
  rw [handle_openai_response_append]
  simp [handle_openai_response, he]

/-- Witness: a `session.updated` event (no dispatch branch) is dropped and
the loop continues. -/
theorem unknown_event_dropped_witness :
    handle_openai_event ⟨some "session.updated", ""⟩ = [] ∧
    handle_openai_response ([] ++ ⟨some "session.updated", ""⟩ :: []) =
      handle_openai_response [] ++ handle_openai_response [] :=
  unknown_event_dropped ⟨some "session.updated", ""⟩ [] [] (by decide)

/-- Counterexample to C6 as stated: an upstream `error` event produces no
client message at all — in particular it is not forwarded to the client
as an `error` message. -/
theorem upstream_error_event_not_forwarded :
    handle_openai_event ⟨some "error", "boom"⟩ = [] := by decide

/-- C6 as amended — an upstream `error` event is silently dropped (the
`if/elif` chain has no branch for it): no message is sent to the client,
and the session is not torn down by that event alone — the forwarding
loop continues with the surrounding events. -/
theorem upstream_error_event_ignored (e : OaEvent) (evs1 evs2 : List OaEvent)
    (h : e.type = some "error") :
    handle_openai_event e = [] ∧
    handle_openai_response (evs1 ++ e :: evs2) =
      handle_openai_response evs1 ++ handle_openai_response evs2 := by
  have he : handle_openai_event e = [] := by
    unfold handle_openai_event
    simp [h]
  refine ⟨he, ?_⟩
  rw [handle_openai_response_append]
  simp [handle_openai_response, he]

/-- Witness for the amended C6 at a concrete `error` event. -/
theorem upstream_error_event_ignored_witness :
    handle_openai_event ⟨some "error", "overload"⟩ = [] ∧
    handle_openai_response ([] ++ ⟨some "error", "overload"⟩ :: []) =
      handle_openai_response [] ++ handle_openai_response [] :=
  upstream_error_event_ignored ⟨some "error", "overload"⟩ [] [] rfl

/-- How the client-receive loop of `websocket_conversation` ends: the
client disconnects (`WebSocketDisconnect`, which cancels the upstream
task) or some other exception is raised (its text is sent to the client
as an `error` message). -/
inductive ClientEnd where
  | disconnect
  | exc (message : String)
deriving DecidableEq

/-- Observable outcome of one complete run of the `websocket_conversation`
endpoint.  `clientOut` records client-bound messages with the
upstream-forwarded messages first and the client-loop's terminal `error`
(if any) last — one fixed interleaving of the two independent channels;
the claims proved below are interleaving-invariant (counts, membership,
emptiness) over it.  `clientReleased` reflects that the ASGI framework
closes the client socket once the handler coroutine finishes, normally or
exceptionally; `raised` is the exception escaping the handler, if any. -/
structure SessionResult where
  clientOut : List ClientOut
  upstreamOut : List UpEvent
  upstreamAttempted : Bool
  upstreamReleased : Bool
  clientReleased : Bool
  raised : Option String
deriving DecidableEq

/-- Embeds the `websocket_conversation` endpoint (after the rate-limit
gate and `accept`).  Branches, in source order:
* `OPENAI_API_KEY` absent — `connect_to_openai` raises
  `HTTPException(500, "OpenAI API key not configured")` before any
  connection attempt; the exception escapes the outer `try`, whose
  `finally` runs `session.close()` (a no-op, `openai_ws` is `None`), and
  the handler exits exceptionally with no message sent to the client.
* `websockets.connect` fails — `connect_to_openai` catches the exception
  and returns `False`; the endpoint sends one `error` message and returns.
* Connection succeeds — the configuration is sent, the upstream-forwarding
  task and the client loop run; the client loop ends per `cend`, and
  `finally` closes the upstream socket. -/
def websocket_conversation (api_key_present connect_ok : Bool) (clock : Nat → Nat)
    (msgs : List ClientMsg) (cend : ClientEnd) (events : List OaEvent) :
    SessionResult :=
  match api_key_present, connect_ok with
  | false, _ =>
    { clientOut := [], upstreamOut := [], upstreamAttempted := false,
      upstreamReleased := true, clientReleased := true,
      raised := some "OpenAI API key not configured" }
  | true, false =>
    { clientOut := [ClientOut.error "Failed to connect to OpenAI"],
      upstreamOut := [], upstreamAttempted := true,
      upstreamReleased := true, clientReleased := true, raised := none }
  | true, true =>
    { clientOut := handle_openai_response events ++
        (match cend with
         | .disconnect => []
         | .exc m => [ClientOut.error m]),
      upstreamOut := upstream_trace clock msgs,
      upstreamAttempted := true, upstreamReleased := true,
      clientReleased := true, raised := none }

/-- State of one WebSocket handle. -/
inductive ConnState where
  | connected
  | released
deriving DecidableEq

/-- The `RealtimeSession` connection state relevant to `close()`:
`openai_ws` is `None` until `connect_to_openai` assigns it. -/
structure RSession where
  openai_ws : Option ConnState
deriving DecidableEq

/-- Embeds `RealtimeSession.close`: `if self.openai_ws: await
self.openai_ws.close()` — closing an already-closed websockets handle is
a no-op. -/
def close : RSession → RSession
  | ⟨none⟩ => ⟨none⟩
  | ⟨some _⟩ => ⟨some ConnState.released⟩

/-- Counterexample to C2 as stated: the upstream connection dropping after
one audio delta produces zero `error` messages to the client (the
`ConnectionClosed` handler only logs), not exactly one. -/
theorem upstream_drop_no_error_message :
    ((websocket_conversation true true (fun i => i) [] ClientEnd.disconnect
        [⟨some "response.audio.delta", "QUJD"⟩]).clientOut.countP is_error) = 0 := by
  decide

/-- C2 as amended — when the upstream connection drops mid-response, the
relay sends no `error` message to the client and forwards nothing beyond
the events received before the drop; the client connection stays open
until the client side ends it, after which both connections are
released. -/
theorem upstream_drop_behavior (clock : Nat → Nat) (msgs : List ClientMsg)
    (evs : List OaEvent) :
    (websocket_conversation true true clock msgs ClientEnd.disconnect evs).clientOut =
      handle_openai_response evs ∧
    ((websocket_conversation true true clock msgs ClientEnd.disconnect
        evs).clientOut.countP is_error) = 0 ∧
    (websocket_conversation true true clock msgs ClientEnd.disconnect
        evs).upstreamReleased = true ∧
    (websocket_conversation true true clock msgs ClientEnd.disconnect
        evs).clientReleased = true := by
  refine ⟨by simp [websocket_conversation], ?_, rfl, rfl⟩
  simp [websocket_conversation, handle_openai_response_no_error]

/-- C3 — `close()` is idempotent, and on every exit path of the endpoint
(missing credentials, failed connect, client disconnect, client-loop
exception) both the upstream and the client connection end up released. -/
theorem close_idempotent_and_both_released :
    (∀ s : RSession, close (close s) = close s) ∧
    (∀ (ak ck : Bool) (clock : Nat → Nat) (msgs : List ClientMsg)
        (cend : ClientEnd) (evs : List OaEvent),
      (websocket_conversation ak ck clock msgs cend evs).upstreamReleased = true ∧
      (websocket_conversation ak ck clock msgs cend evs).clientReleased = true) := by
  constructor
  · intro s
    obtain ⟨ws⟩ := s
    cases ws with
    | none => rfl
    | some c => rfl
  · intro ak ck clock msgs cend evs
    cases ak <;> cases ck <;> exact ⟨rfl, rfl⟩

/-- C5 — `session_ready` is sent once per upstream `session.created`
acknowledgment, so it is sent at most once whenever the upstream sends at
most one acknowledgment (the upstream handshake's protocol contract), and
it is never sent when the upstream handshake did not succeed. -/
theorem session_ready_at_most_once (ak ck : Bool) (clock : Nat → Nat)
    (msgs : List ClientMsg) (cend : ClientEnd) (evs : List OaEvent)
    (h : evs.countP is_session_created ≤ 1) :
    ((websocket_conversation ak ck clock msgs cend evs).clientOut.countP is_ready =
      cond (ak && ck) (evs.countP is_session_created) 0) ∧
    ((websocket_conversation ak ck clock msgs cend evs).clientOut.countP is_ready ≤ 1) ∧
    ((ak = false ∨ ck = false) →
      (websocket_conversation ak ck clock msgs cend evs).clientOut.countP is_ready = 0) := by
  have hcount :
      (websocket_conversation ak ck clock msgs cend evs).clientOut.countP is_ready =
        cond (ak && ck) (evs.countP is_session_created) 0 := by
    cases ak with
    | false => simp [websocket_conversation, is_ready]
    | true =>
      cases ck with
      | false => simp [websocket_conversation, is_ready]
      | true =>
        cases cend <;>
          simp [websocket_conversation, List.countP_append, is_ready,
            handle_openai_response_ready_count]
  refine ⟨hcount, ?_, ?_⟩
  · rw [hcount]
    cases ak <;> cases ck <;> simp [h]
  · intro hor
    rw [hcount]
    rcases hor with rfl | rfl
    · rfl
    · cases ak <;> rfl

/-- Witness: one `session.created` acknowledgment yields exactly one
`session_ready` on a connected session. -/
theorem session_ready_at_most_once_witness :
    ((websocket_conversation true true (fun i => i) [] ClientEnd.disconnect
        [⟨some "session.created", ""⟩]).clientOut.countP is_ready =
      cond (true && true)
        (([⟨some "session.created", ""⟩] : List OaEvent).countP is_session_created) 0) ∧
    ((websocket_conversation true true (fun i => i) [] ClientEnd.disconnect
        [⟨some "session.created", ""⟩]).clientOut.countP is_ready ≤ 1) ∧
    ((true = false ∨ true = false) →
      (websocket_conversation true true (fun i => i) [] ClientEnd.disconnect
        [⟨some "session.created", ""⟩]).clientOut.countP is_ready = 0) :=
  session_ready_at_most_once true true (fun i => i) [] ClientEnd.disconnect
    [⟨some "session.created", ""⟩] (by decide)

/-- Counterexample to C9 as stated: with the API key absent, the client
receives no message at all — in particular no configuration-error
message (`connect_to_openai` raises `HTTPException` before the endpoint's
`send_json` error path, and the exception escapes the handler). -/
theorem missing_key_no_client_error :
    (websocket_conversation false true (fun i => i) [] ClientEnd.disconnect
      []).clientOut = [] := by rfl

/-- C9 as amended — with the API key absent the session never attempts
the upstream connection and terminates directly with both connections
released, but the configuration error surfaces only as an exception
(`HTTPException` "OpenAI API key not configured") escaping the handler:
no error message is sent to the client over the client protocol. -/
theorem missing_key_behavior (ck : Bool) (clock : Nat → Nat)
    (msgs : List ClientMsg) (cend : ClientEnd) (evs : List OaEvent) :
    (websocket_conversation false ck clock msgs cend evs).upstreamAttempted = false ∧
    (websocket_conversation false ck clock msgs cend evs).clientOut = [] ∧
    (websocket_conversation false ck clock msgs cend evs).raised =
      some "OpenAI API key not configured" ∧
    (websocket_conversation false ck clock msgs cend evs).upstreamReleased = true ∧
    (websocket_conversation false ck clock msgs cend evs).clientReleased = true := by
  cases ck <;> exact ⟨rfl, rfl, rfl, rfl, rfl⟩

end PodcastStudio
